import Mathlib

/-!
Verification of the point-cloud comparison tool (`visualization/compare_clouds.py`)
and the LaTeX figure generator (`visualization/create_latex_figures.py`).

The numeric arrays of the Python code are modelled as `List ℚ`; numpy float
arithmetic on the values that matter here (grid indices, filter values,
distance comparisons, means and fractions) is exact rational arithmetic in the
source, so `ℚ` is a faithful carrier.  Fallible numpy operations are modelled
with `Except String`.
-/

namespace VisionToolkit

/-- `np.round`: rounds to the nearest integer, ties to even
(IEEE round-half-even, which is what numpy implements for `np.round`). -/
def npRound (q : ℚ) : ℤ :=
  if Int.fract q < 1/2 then ⌊q⌋
  else if 1/2 < Int.fract q then ⌊q⌋ + 1
  else if 2 ∣ ⌊q⌋ then ⌊q⌋ else ⌊q⌋ + 1

/-- `correct_round(n) = np.round(n + 0.5)` (compare_clouds.py, lines 28-29).
The result of `np.round` is an integer-valued float; we keep it in `ℚ`. -/
def correct_round (q : ℚ) : ℚ := (npRound (q + 1/2) : ℚ)

/-- numpy `.astype(int)`: truncation toward zero.  It is applied only to the
integer-valued output of `correct_round`, where it is exact. -/
def astype_int (q : ℚ) : ℤ := if 0 ≤ q then ⌊q⌋ else ⌈q⌉

/-- The composite rounding used for grid indices:
`correct_round(...).astype(int)` (compare_clouds.py, line 52). -/
def gridRound (q : ℚ) : ℤ := astype_int (correct_round q)

theorem astype_int_intCast (m : ℤ) : astype_int (m : ℚ) = m := by
  unfold astype_int
  split <;> simp

theorem gridRound_eq_npRound (q : ℚ) : gridRound q = npRound (q + 1/2) := by
  unfold gridRound correct_round
  exact astype_int_intCast _

theorem den_ne_one_fract_ne_zero {q : ℚ} (h : q.den ≠ 1) : Int.fract q ≠ 0 := by
  intro h0
  have hz : q = (⌊q⌋ : ℚ) := by
    have hfl := Int.floor_add_fract q
    rw [h0, add_zero] at hfl
    exact hfl.symm
  rw [hz] at h
  exact h (Rat.den_intCast _)

theorem npRound_add_half_of_fract_ne_zero {q : ℚ} (h : Int.fract q ≠ 0) :
    npRound (q + 1/2) = ⌊q⌋ + 1 := by
  have h0 : (0 : ℚ) ≤ Int.fract q := Int.fract_nonneg q
  have h1 : Int.fract q < 1 := Int.fract_lt_one q
  have hq : q = (⌊q⌋ : ℚ) + Int.fract q := by rw [Int.floor_add_fract]
  rcases lt_trichotomy (Int.fract q) (1/2) with hlt | heq | hgt
  · -- 0 < fract q < 1/2 : floor (q + 1/2) = ⌊q⌋ and fract (q + 1/2) > 1/2
    have hpos : 0 < Int.fract q := lt_of_le_of_ne h0 (Ne.symm h)
    have hfl : ⌊q + 1/2⌋ = ⌊q⌋ := by
      rw [Int.floor_eq_iff]
      constructor
      · nlinarith [hq]
      · nlinarith [hq]
    have hfr : Int.fract (q + 1/2) = Int.fract q + 1/2 := by
      unfold Int.fract
      rw [hfl]
      nlinarith [hq]
    unfold npRound
    rw [hfr, hfl, if_neg (by linarith), if_pos (by linarith)]
  · -- fract q = 1/2 : q + 1/2 is the integer ⌊q⌋ + 1
    have hqv : q + 1/2 = ((⌊q⌋ + 1 : ℤ) : ℚ) := by
      push_cast
      nlinarith [hq, heq]
    unfold npRound
    rw [hqv, Int.fract_intCast, Int.floor_intCast]
    norm_num
  · -- 1/2 < fract q < 1 : floor (q + 1/2) = ⌊q⌋ + 1 and fract (q + 1/2) < 1/2
    have hfl : ⌊q + 1/2⌋ = ⌊q⌋ + 1 := by
      rw [Int.floor_eq_iff]
      constructor
      · push_cast
        nlinarith [hq]
      · push_cast
        nlinarith [hq]
    have hfr : Int.fract (q + 1/2) = Int.fract q - 1/2 := by
      unfold Int.fract
      rw [hfl]
      push_cast
      nlinarith [hq]
    unfold npRound
    rw [hfr, hfl, if_pos (by linarith)]

theorem npRound_add_half_of_int (n : ℤ) :
    npRound ((n : ℚ) + 1/2) = if 2 ∣ n then n else n + 1 := by
  unfold npRound
  have hfl : ⌊(n : ℚ) + 1/2⌋ = n := by
    rw [Int.floor_eq_iff]
    constructor
    · linarith
    · linarith
  have hfr : Int.fract ((n : ℚ) + 1/2) = 1/2 := by
    unfold Int.fract
    rw [hfl]
    ring
  rw [hfr, hfl]
  norm_num

/-- A 3D point with exact rational coordinates. -/
structure Vec3 where
  x : ℚ
  y : ℚ
  z : ℚ
deriving DecidableEq

/-- The observation mask: a 3D boolean grid of shape `(s0, s1, s2)`, stored
flattened in row-major (C) order, exactly as `mask.flatten()` lays it out. -/
structure ObsMask where
  s0 : ℕ
  s1 : ℕ
  s2 : ℕ
  data : List Bool
deriving DecidableEq

/-- Grid index of one point: `correct_round((p - min_bound) / res).astype(int)`
coordinatewise (compare_clouds.py, lines 47-52). -/
def gridIndex (min_bound : Vec3) (res : ℚ) (p : Vec3) : ℤ × ℤ × ℤ :=
  (gridRound ((p.x - min_bound.x) / res),
   gridRound ((p.y - min_bound.y) / res),
   gridRound ((p.z - min_bound.z) / res))

/-- The in-bounds test of line 55: `qv >= 0` and `qv < mask_shape` on all
three axes. -/
def inBoundsB (m : ObsMask) (v : ℤ × ℤ × ℤ) : Bool :=
  decide (0 ≤ v.1) && decide (v.1 < (m.s0 : ℤ)) &&
  decide (0 ≤ v.2.1) && decide (v.2.1 < (m.s1 : ℤ)) &&
  decide (0 ≤ v.2.2) && decide (v.2.2 < (m.s2 : ℤ))

/-- `np.ravel_multi_index(v, dims=mask.shape, order='C')` for one index
triple: `x*s1*s2 + y*s2 + z` (line 58). -/
def flatIndex (m : ObsMask) (v : ℤ × ℤ × ℤ) : ℤ :=
  v.1 * (m.s1 * m.s2) + v.2.1 * m.s2 + v.2.2

/-- `mask.flatten()[flatIndex m v]` (lines 61-62); the lookup is only ever
done at in-bounds triples, where the flat index is nonnegative. -/
def maskAt (m : ObsMask) (v : ℤ × ℤ × ℤ) : Bool :=
  m.data.getD (flatIndex m v).toNat false

/-- The scatter assignment `filt[inds] = 1` (line 65) on an array initialised
by `np.zeros`: a fold of single-position writes. -/
def scatterOnes (filt : List ℚ) (inds : List ℕ) : List ℚ :=
  inds.foldl (fun f i => f.set i 1) filt

/-- `build_src_points_filter` (compare_clouds.py, lines 41-68).
`in_bounds[valid_mask_points]` — the in-bounds positions kept by the mask
value — is literally the sublist of `in_bounds` whose mask cell is true,
written here as a second `filter`. -/
def build_src_points_filter (points : List Vec3) (min_bound : Vec3) (res : ℚ)
    (mask : ObsMask) : List ℚ :=
  let qv := points.map (gridIndex min_bound res)
  let in_bounds := (List.range points.length).filter
    (fun i => inBoundsB mask (qv.getD i (0, 0, 0)))
  let valid_mask_points := in_bounds.filter
    (fun i => maskAt mask (qv.getD i (0, 0, 0)))
  scatterOnes (List.replicate points.length 0) valid_mask_points

/-- A homogeneous ground-truth plane 4-vector `P`. -/
structure Plane4 where
  a : ℚ
  b : ℚ
  c : ℚ
  d : ℚ

/-- `P^T @ [x, y, z, 1]` for one point: the homogeneous inner product
(lines 75-80, after appending the row of ones). -/
def planeProd (P : Plane4) (p : Vec3) : ℚ :=
  P.a * p.x + P.b * p.y + P.c * p.z + P.d

/-- `build_tgt_points_filter` (lines 70-83): `np.where(plane_prod > 0, 1, 0)`. -/
def build_tgt_points_filter (points : List Vec3) (P : Plane4) : List ℚ :=
  points.map (fun p => if 0 < planeProd P p then (1 : ℚ) else 0)

/-- `np.where(filt == 1)[0]`: the indices whose filter value equals 1. -/
def whereEqOne (filt : List ℚ) : List ℕ :=
  (List.range filt.length).filter (fun i => decide (filt.getD i 0 = 1))

/-- `np.where(dists <= md)[0]` with the hard-coded outlier cutoff `md = 20`
(lines 87, 92, 99). -/
def whereLeTwenty (dists : List ℚ) : List ℕ :=
  (List.range dists.length).filter (fun i => decide (dists.getD i 0 ≤ 20))

/-- Lines 91-93 resp. 98-100: `set(np.where(filt == 1)[0])` intersected
in place with `set(np.where(dists <= 20)[0])`.  We keep the intersection in
ascending index order; a Python `set` may enumerate it differently, but every
consumer below (mean, counts, fractions, select-by-index point sets) is
insensitive to that order. -/
def validInds (dists filt : List ℚ) : List ℕ :=
  (whereEqOne filt).filter (fun i => decide (i ∈ whereLeTwenty dists))

/-- `np.asarray(list(s))` followed by the fancy indexing `xs[inds]`
(lines 94-95 resp. 101-102).  When the set is empty, `np.asarray` yields a
float64 array, and numpy rejects float indices with an `IndexError`;
otherwise the elements are numpy integers and indexing selects the values. -/
def npIndexSelect (xs : List ℚ) (inds : List ℕ) : Except String (List ℚ) :=
  if inds.isEmpty then
    Except.error "IndexError: arrays used as indices must be of integer (or boolean) type"
  else
    Except.ok (inds.map (fun i => xs.getD i 0))

/-- `np.mean` of a nonempty array, exactly. -/
def npMean (l : List ℚ) : ℚ := l.sum / l.length

/-- `np.linspace(start, stop, num)`: `num` evenly spaced samples, both
endpoints included. -/
def npLinspace (start stop : ℚ) (num : ℕ) : List ℚ :=
  (List.range num).map (fun i : ℕ => start + (stop - start) * (i : ℚ) / ((num - 1 : ℕ) : ℚ))

/-- `len(np.where(l <= th)[0])` for a 1-D array. -/
def countLe (l : List ℚ) (th : ℚ) : ℕ :=
  (l.filter (fun d => decide (d ≤ th))).length

/-- The scalar metrics, threshold sweep and valid point counts returned by
`compare_point_clouds`.  `recl` is `rec` in the source (`rec` is reserved
in Lean). -/
structure CompareMetrics where
  acc : ℚ
  comp : ℚ
  prec : ℚ
  recl : ℚ
  th_vals : List ℚ
  prec_vals : List ℚ
  rec_vals : List ℚ
  src_size : ℕ
  tgt_size : ℕ
deriving DecidableEq

/-- The metric computation of `compare_point_clouds` (compare_clouds.py,
lines 85-114).  The two distance arrays are parameters because
`compute_point_cloud_distance` is an external open3d nearest-neighbor query:
it returns, per point, the Euclidean distance to the nearest point of the
opposite cloud.  The `match` reproduces Python's sequential evaluation: the
source-side fancy indexing runs first and its failure aborts the call. -/
def compare_point_clouds (dists_src dists_tgt src_filt tgt_filt : List ℚ)
    (max_dist : ℚ) : Except String CompareMetrics :=
  let valid_inds_src := validInds dists_src src_filt
  let valid_inds_tgt := validInds dists_tgt tgt_filt
  match npIndexSelect dists_src valid_inds_src,
        npIndexSelect dists_tgt valid_inds_tgt with
  | Except.error e, _ => Except.error e
  | Except.ok _, Except.error e => Except.error e
  | Except.ok ds, Except.ok dt =>
      let th_vals := npLinspace 0 (3 * max_dist) 50
      Except.ok ⟨npMean ds, npMean dt,
        (countLe ds max_dist : ℚ) / ds.length,
        (countLe dt max_dist : ℚ) / dt.length,
        th_vals,
        th_vals.map (fun th => (countLe ds th : ℚ) / ds.length),
        th_vals.map (fun th => (countLe dt th : ℚ) / dt.length),
        valid_inds_src.length, valid_inds_tgt.length⟩

/-- An open3d point cloud: an ordered point list with per-point colors. -/
structure Cloud where
  points : List Vec3
  colors : List Vec3
deriving DecidableEq

/-- open3d `select_by_index`: builds a NEW cloud holding the points (and
colors) at the given indices, or at the complementary indices when
`invert=True`; the input cloud is not modified. -/
def select_by_index (c : Cloud) (inds : List ℕ) (invert : Bool) : Cloud :=
  if invert then
    ⟨((List.range c.points.length).filter (fun i => decide (i ∉ inds))).map
        (fun i => c.points.getD i ⟨0, 0, 0⟩),
     ((List.range c.colors.length).filter (fun i => decide (i ∉ inds))).map
        (fun i => c.colors.getD i ⟨0, 0, 0⟩)⟩
  else
    ⟨inds.map (fun i => c.points.getD i ⟨0, 0, 0⟩),
     inds.map (fun i => c.colors.getD i ⟨0, 0, 0⟩)⟩

/-- The assignment `ply.colors = o3d.utility.Vector3dVector(cols)`, always
performed on a derived cloud. -/
def setColors (c : Cloud) (cols : List Vec3) : Cloud := ⟨c.points, cols⟩

/-- open3d `ply1 + ply2`: a new concatenated cloud. -/
def cloudConcat (c1 c2 : Cloud) : Cloud :=
  ⟨c1.points ++ c2.points, c1.colors ++ c2.colors⟩

structure ComparePlyOut where
  precision_ply : Cloud
  recall_ply : Cloud
  metrics : CompareMetrics
  src_ply_after : Cloud
  tgt_ply_after : Cloud

/-- The full body of `compare_point_clouds` (lines 85-142) including the
colored diagnostic clouds.  The `..._after` fields are the final values of
the `src_ply` / `tgt_ply` variables once the body has run: every statement
either only reads them (`compute_point_cloud_distance`, `select_by_index`)
or assigns to one of the derived `valid_/invalid_..._ply` clouds, so the two
inputs thread through unchanged.  The matplotlib colormap tables `hot_r` and
`winter` are external data and enter as function parameters. -/
def compare_point_clouds_ply (src_ply tgt_ply : Cloud)
    (dists_src dists_tgt src_filt tgt_filt : List ℚ) (max_dist : ℚ)
    (cmapHot cmapWinter : ℚ → Vec3) : Except String ComparePlyOut :=
  let vS := validInds dists_src src_filt
  let vT := validInds dists_tgt tgt_filt
  match compare_point_clouds dists_src dists_tgt src_filt tgt_filt max_dist with
  | Except.error e => Except.error e
  | Except.ok m =>
      let ds := vS.map (fun i => dists_src.getD i 0)
      let dt := vT.map (fun i => dists_tgt.getD i 0)
      let valid_src_ply := select_by_index src_ply vS false
      let valid_src_ply := setColors valid_src_ply
        (ds.map (fun d => cmapHot (min d max_dist / max_dist)))
      let invalid_src_ply := select_by_index src_ply vS true
      let invalid_src_ply := setColors invalid_src_ply
        (invalid_src_ply.points.map (fun _ => cmapWinter 1))
      let valid_tgt_ply := select_by_index tgt_ply vT false
      let valid_tgt_ply := setColors valid_tgt_ply
        (dt.map (fun d => cmapHot (min d max_dist / max_dist)))
      let invalid_tgt_ply := select_by_index tgt_ply vT true
      let invalid_tgt_ply := setColors invalid_tgt_ply
        (invalid_tgt_ply.points.map (fun _ => cmapWinter 1))
      Except.ok ⟨cloudConcat valid_src_ply invalid_src_ply,
        cloudConcat valid_tgt_ply invalid_tgt_ply, m, src_ply, tgt_ply⟩

/-- Python `ply_path[-3:]`: the last three characters of the string (the
whole string when it is shorter than three characters). -/
def pyLastThree (s : List Char) : List Char := s.drop (s.length - 3)

/-- The extension gate of `read_point_cloud` (compare_clouds.py, lines
31-39): the call proceeds — to the external open3d load and voxel
downsample — iff `ply_path[-3:] == "ply"`; otherwise `sys.exit()` aborts
the process. -/
def read_point_cloud_proceeds (path : List Char) : Bool :=
  decide (pyLastThree path = ['p', 'l', 'y'])

/-- Modelled from the spec: "fails if the file extension is not the
recognized point-cloud format" / "the path's file extension is not the
expected \".ply\"" — i.e. the path ends with the four characters `.ply`. -/
def hasPlyExtension (path : List Char) : Bool :=
  decide (['.', 'p', 'l', 'y'] <:+ path)

/-- `"{:.1f}".format(q)` for the nonnegative subfigure width `1/num`: one
decimal digit, round-half-even.  (The exact width digits play no role in any
property below; the definition is carried for fidelity.) -/
def fmtOneDecimal (q : ℚ) : String :=
  let t := npRound (10 * q)
  toString (t / 10) ++ "." ++ toString (t % 10)

/-- The first lines of one subfigure block, before its caption
(create_latex_figures.py, loop body). -/
def subfigHead (w img : String) : String :=
  "\t\\centering\n" ++
  "\t\\begin\x7bsubfigure\x7d\x7b" ++ w ++ "\\textwidth\x7d\n" ++
  "\t\t\\centering\n" ++
  "\t\t\\includegraphics[width=\\textwidth]\x7b" ++ img ++ "\x7d\n"

/-- Caption line, label line and closing of one subfigure block. -/
def subfigCapLab (caption label : String) : String :=
  "\t\t\\caption\x7b" ++ caption ++ "\x7d\n" ++
  "\t\t\\label\x7bfig:" ++ label ++ "\x7d\n" ++
  "\t\\end\x7bsubfigure\x7d\n\t\\hfill\n"

/-- One full subfigure block, as appended per loop iteration. -/
def subfigBlock (w img caption label : String) : String :=
  subfigHead w img ++ subfigCapLab caption label

/-- Figure caption, figure label and closing, appended after the loop. -/
def figureTail (caption label : String) : String :=
  "\t\\caption\x7b" ++ caption ++ "\x7d\n" ++
  "\t\\label\x7bfig:" ++ label ++ "\x7d\n" ++
  "\\end\x7bfigure\x7d"

/-- `create_subfigures` (create_latex_figures.py, lines 7-25).  Python's
`captions[-1]` / `labels[-1]` are the last elements (`getLastD`); on empty
input the Python function would raise before producing a string, and every
property below assumes nonempty input. -/
def create_subfigures (images captions labels : List String) : String :=
  let num_sub_figs := images.length
  let w := fmtOneDecimal (1 / (num_sub_figs : ℚ))
  ((List.range num_sub_figs).foldl
    (fun fig n => fig ++ subfigBlock w (images.getD n "")
      (captions.getD n "") (labels.getD n ""))
    "\\begin\x7bfigure\x7d\n")
  ++ figureTail (captions.getLastD "") (labels.getLastD "")

/-! ### Helper lemmas -/

theorem scatterOnes_getD (inds : List ℕ) : ∀ (f : List ℚ) (i : ℕ), i < f.length →
    (scatterOnes f inds).getD i 0 = if i ∈ inds then 1 else f.getD i 0 := by
  induction inds with
  | nil =>
    intro f i hi
    simp [scatterOnes]
  | cons j t ih =>
    intro f i hi
    have hstep : scatterOnes f (j :: t) = scatterOnes (f.set j 1) t := rfl
    rw [hstep, ih (f.set j 1) i (by simpa using hi)]
    by_cases hij : i = j
    · subst hij
      by_cases hit : i ∈ t
      · simp [hit]
      · simp only [hit, if_false, List.mem_cons, true_or, if_true]
        rw [List.getD_eq_getElem?_getD, List.getElem?_set_eq_of_lt _ hi]
        rfl
    · have hji : j ≠ i := fun h => hij h.symm
      by_cases hit : i ∈ t
      · simp [hit]
      · simp only [hit, if_false, List.mem_cons, hij, false_or]
        rw [List.getD_eq_getElem?_getD, List.getElem?_set_ne hji,
          ← List.getD_eq_getElem?_getD]

theorem mem_whereEqOne {filt : List ℚ} {i : ℕ} :
    i ∈ whereEqOne filt ↔ i < filt.length ∧ filt.getD i 0 = 1 := by
  simp [whereEqOne, List.mem_filter, List.mem_range]

theorem mem_whereLeTwenty {dists : List ℚ} {i : ℕ} :
    i ∈ whereLeTwenty dists ↔ i < dists.length ∧ dists.getD i 0 ≤ 20 := by
  simp [whereLeTwenty, List.mem_filter, List.mem_range]

theorem mem_validInds {dists filt : List ℚ} {i : ℕ} :
    i ∈ validInds dists filt ↔
      (i < filt.length ∧ filt.getD i 0 = 1) ∧
      (i < dists.length ∧ dists.getD i 0 ≤ 20) := by
  simp [validInds, List.mem_filter, mem_whereEqOne, mem_whereLeTwenty]

/-! ### C2: the source filter -/

/-- C2: for every source cloud, mask grid, minimum bound and resolution,
`build_src_points_filter` assigns 0 to every point whose computed grid index
falls outside the mask grid bounds on any axis, and for every in-bounds point
assigns 1 when the mask cell at its row-major flattened index is true and 0
when it is false. -/
theorem build_src_points_filter_spec (points : List Vec3) (min_bound : Vec3)
    (res : ℚ) (mask : ObsMask) (i : ℕ) (hi : i < points.length) :
    (build_src_points_filter points min_bound res mask).getD i 0 =
      (if inBoundsB mask (gridIndex min_bound res (points.getD i ⟨0, 0, 0⟩)) then
        (if maskAt mask (gridIndex min_bound res (points.getD i ⟨0, 0, 0⟩)) then 1 else 0)
       else 0) := by
  have hqv : (points.map (gridIndex min_bound res)).getD i (0, 0, 0)
      = gridIndex min_bound res (points.getD i ⟨0, 0, 0⟩) := by
    rw [List.getD_eq_getElem?_getD, List.getElem?_map, List.getElem?_eq_getElem hi,
      List.getD_eq_getElem?_getD, List.getElem?_eq_getElem hi]
    rfl
  have hrep : (List.replicate points.length (0 : ℚ)).getD i 0 = 0 := by
    rw [List.getD_eq_getElem?_getD, List.getElem?_replicate, if_pos hi]
    rfl
  unfold build_src_points_filter
  rw [scatterOnes_getD _ _ i (by simpa using hi), hrep]
  have hkey : (i ∈ ((List.range points.length).filter
        (fun k => inBoundsB mask ((points.map (gridIndex min_bound res)).getD k (0, 0, 0)))).filter
        (fun k => maskAt mask ((points.map (gridIndex min_bound res)).getD k (0, 0, 0))))
      ↔ (inBoundsB mask (gridIndex min_bound res (points.getD i ⟨0, 0, 0⟩)) = true
         ∧ maskAt mask (gridIndex min_bound res (points.getD i ⟨0, 0, 0⟩)) = true) := by
    rw [List.mem_filter, List.mem_filter, List.mem_range]
    constructor
    · rintro ⟨⟨-, h1⟩, h2⟩
      simp only [hqv] at h1 h2
      exact ⟨h1, h2⟩
    · rintro ⟨h1, h2⟩
      simp only [hqv]
      exact ⟨⟨hi, h1⟩, h2⟩
  by_cases hb : inBoundsB mask (gridIndex min_bound res (points.getD i ⟨0, 0, 0⟩)) = true
  · by_cases hm : maskAt mask (gridIndex min_bound res (points.getD i ⟨0, 0, 0⟩)) = true
    · rw [if_pos (hkey.mpr ⟨hb, hm⟩), if_pos hb, if_pos hm]
    · rw [if_neg (fun hc => hm (hkey.mp hc).2), if_pos hb, if_neg hm]
  · rw [if_neg (fun hc => hb (hkey.mp hc).1), if_neg hb]

theorem build_src_points_filter_spec_witness :
    (build_src_points_filter [⟨0, 0, 0⟩] ⟨0, 0, 0⟩ 1 ⟨1, 1, 1, [true]⟩).getD 0 0 =
      (if inBoundsB ⟨1, 1, 1, [true]⟩ (gridIndex ⟨0, 0, 0⟩ 1 (([⟨0, 0, 0⟩] : List Vec3).getD 0 ⟨0, 0, 0⟩)) then
        (if maskAt ⟨1, 1, 1, [true]⟩ (gridIndex ⟨0, 0, 0⟩ 1 (([⟨0, 0, 0⟩] : List Vec3).getD 0 ⟨0, 0, 0⟩)) then 1 else 0)
       else 0) :=
  build_src_points_filter_spec [⟨0, 0, 0⟩] ⟨0, 0, 0⟩ 1 ⟨1, 1, 1, [true]⟩ 0 (by decide)

/-! ### C3: the target filter -/

/-- C3: `build_tgt_points_filter` assigns 1 to a point iff the homogeneous
inner product with the plane is strictly positive; a product that is zero or
negative yields 0. -/
theorem build_tgt_points_filter_spec (points : List Vec3) (P : Plane4) (i : ℕ)
    (hi : i < points.length) :
    ((build_tgt_points_filter points P).getD i 0 = 1 ↔
      0 < planeProd P (points.getD i ⟨0, 0, 0⟩))
    ∧ (planeProd P (points.getD i ⟨0, 0, 0⟩) ≤ 0 →
      (build_tgt_points_filter points P).getD i 0 = 0) := by
  have hv : (build_tgt_points_filter points P).getD i 0
      = if 0 < planeProd P (points.getD i ⟨0, 0, 0⟩) then 1 else 0 := by
    unfold build_tgt_points_filter
    rw [List.getD_eq_getElem?_getD, List.getElem?_map, List.getElem?_eq_getElem hi,
      List.getD_eq_getElem?_getD, List.getElem?_eq_getElem hi]
    rfl
  rw [hv]
  constructor
  · constructor
    · intro h1
      by_contra hneg
      rw [if_neg hneg] at h1
      exact absurd h1 (by norm_num)
    · intro hpos
      rw [if_pos hpos]
  · intro hle
    rw [if_neg (by linarith)]

theorem build_tgt_points_filter_spec_witness :
    ((build_tgt_points_filter [⟨1, 0, 0⟩] ⟨1, 0, 0, 0⟩).getD 0 0 = 1 ↔
      0 < planeProd ⟨1, 0, 0, 0⟩ (([⟨1, 0, 0⟩] : List Vec3).getD 0 ⟨0, 0, 0⟩))
    ∧ (planeProd ⟨1, 0, 0, 0⟩ (([⟨1, 0, 0⟩] : List Vec3).getD 0 ⟨0, 0, 0⟩) ≤ 0 →
      (build_tgt_points_filter [⟨1, 0, 0⟩] ⟨1, 0, 0, 0⟩).getD 0 0 = 0) :=
  build_tgt_points_filter_spec [⟨1, 0, 0⟩] ⟨1, 0, 0, 0⟩ 0 (by decide)

/-! ### C1: the valid index set of the metric computation -/

/-- C1: in `compare_point_clouds` a point index participates in the metric
computation iff its filter entry equals 1 AND its nearest-neighbor distance
is at most the outlier cutoff 20 (the intersection of the two conditions);
a distance above 20 excludes the point even when its filter entry is 1. -/
theorem validInds_spec (dists filt : List ℚ) (i : ℕ)
    (hlen : filt.length = dists.length) :
    (i ∈ validInds dists filt ↔
      i < dists.length ∧ filt.getD i 0 = 1 ∧ dists.getD i 0 ≤ 20)
    ∧ (20 < dists.getD i 0 → i ∉ validInds dists filt) := by
  constructor
  · rw [mem_validInds]
    constructor
    · rintro ⟨⟨-, h2⟩, h3, h4⟩
      exact ⟨h3, h2, h4⟩
    · rintro ⟨h1, h2, h3⟩
      exact ⟨⟨hlen ▸ h1, h2⟩, h1, h3⟩
  · intro hgt hmem
    rw [mem_validInds] at hmem
    linarith [hmem.2.2]

theorem validInds_spec_witness :
    (1 : ℕ) ∉ validInds [(1 : ℚ), 25] [(1 : ℚ), 1] :=
  (validInds_spec [(1 : ℚ), 25] [(1 : ℚ), 1] 1 (by decide)).2 (by decide)

/-! ### C4: the rounding used for grid indices -/

/-- C4 counterexample: the claim says `correct_round(x).astype(int)` equals
`floor(x + 0.5)` for every input, but at `x = 1` the code yields
`np.round(1.5) = 2` while `floor(1.5) = 1`. -/
theorem correct_round_not_half_up :
    gridRound 1 = 2 ∧ ⌊(1 : ℚ) + 1/2⌋ = 1 := by
  constructor
  · rw [(by norm_num : (1 : ℚ) = ((1 : ℤ) : ℚ)), gridRound_eq_npRound,
      npRound_add_half_of_int 1]
    norm_num
  · norm_num [Int.floor_eq_iff]

/-- C4 (amended): the rounding function `correct_round(...).astype(int)` is
round-half-to-even applied to `x + 0.5`: every non-integer input `x` maps to
`⌊x⌋ + 1`, an integer input maps to itself when even and to its successor
when odd; in particular 2.5 maps to 3 and -0.5 maps to 0, but the function
does not implement round half up (`floor(x + 0.5)`). -/
theorem correct_round_astype_spec :
    (∀ q : ℚ, q.den ≠ 1 → gridRound q = ⌊q⌋ + 1)
    ∧ (∀ q : ℚ, q.den = 1 → gridRound q = (if 2 ∣ ⌊q⌋ then ⌊q⌋ else ⌊q⌋ + 1))
    ∧ gridRound (5/2) = 3 ∧ gridRound (-(1/2)) = 0 := by
  have hni : ∀ q : ℚ, q.den ≠ 1 → gridRound q = ⌊q⌋ + 1 := by
    intro q hq
    rw [gridRound_eq_npRound]
    exact npRound_add_half_of_fract_ne_zero (den_ne_one_fract_ne_zero hq)
  have hint : ∀ q : ℚ, q.den = 1 → gridRound q = (if 2 ∣ ⌊q⌋ then ⌊q⌋ else ⌊q⌋ + 1) := by
    intro q hq
    have hnum : ((q.num : ℚ)) = q := Rat.coe_int_num_of_den_eq_one hq
    rw [gridRound_eq_npRound, ← hnum, npRound_add_half_of_int q.num, Int.floor_intCast]
  refine ⟨hni, hint, ?_, ?_⟩
  · rw [gridRound_eq_npRound, (by norm_num : (5 : ℚ)/2 + 1/2 = ((3 : ℤ) : ℚ))]
    unfold npRound
    rw [Int.fract_intCast, Int.floor_intCast]
    norm_num
  · rw [gridRound_eq_npRound, (by norm_num : -((1 : ℚ)/2) + 1/2 = ((0 : ℤ) : ℚ))]
    unfold npRound
    rw [Int.fract_intCast, Int.floor_intCast]
    norm_num

theorem correct_round_astype_spec_witness :
    gridRound (mkRat 11 5) = ⌊mkRat 11 5⌋ + 1 :=
  correct_round_astype_spec.1 (mkRat 11 5) (by decide)

/-! ### C5: behavior on an empty valid set -/

/-- C5: evaluating `compare_point_clouds` at a source side whose filter is
all zeros.  The valid source index set is empty, `np.asarray` of the empty
Python set is a float64 array, and the fancy indexing
`dists_src[valid_inds_src]` raises `IndexError` — the run aborts with an
unhandled exception instead of returning an `EmptyValidSet` sentinel. -/
theorem compare_point_clouds_empty_src_eval :
    compare_point_clouds [1] [1] [0] [1] 1 =
      Except.error "IndexError: arrays used as indices must be of integer (or boolean) type" := by
  rfl

/-! ### Successful runs of `compare_point_clouds` -/

theorem npIndexSelect_of_ne_nil {xs : List ℚ} {inds : List ℕ} (h : inds ≠ []) :
    npIndexSelect xs inds = Except.ok (inds.map (fun i => xs.getD i 0)) := by
  unfold npIndexSelect
  rw [if_neg]
  simpa using h

theorem compare_point_clouds_ok (dists_src dists_tgt src_filt tgt_filt : List ℚ)
    (max_dist : ℚ) (hs : validInds dists_src src_filt ≠ [])
    (ht : validInds dists_tgt tgt_filt ≠ []) :
    compare_point_clouds dists_src dists_tgt src_filt tgt_filt max_dist =
      Except.ok
        ⟨npMean ((validInds dists_src src_filt).map (fun i => dists_src.getD i 0)),
         npMean ((validInds dists_tgt tgt_filt).map (fun i => dists_tgt.getD i 0)),
         (countLe ((validInds dists_src src_filt).map (fun i => dists_src.getD i 0)) max_dist : ℚ)
           / ((validInds dists_src src_filt).map (fun i => dists_src.getD i 0)).length,
         (countLe ((validInds dists_tgt tgt_filt).map (fun i => dists_tgt.getD i 0)) max_dist : ℚ)
           / ((validInds dists_tgt tgt_filt).map (fun i => dists_tgt.getD i 0)).length,
         npLinspace 0 (3 * max_dist) 50,
         (npLinspace 0 (3 * max_dist) 50).map
           (fun th =>
             (countLe ((validInds dists_src src_filt).map (fun i => dists_src.getD i 0)) th : ℚ)
               / ((validInds dists_src src_filt).map (fun i => dists_src.getD i 0)).length),
         (npLinspace 0 (3 * max_dist) 50).map
           (fun th =>
             (countLe ((validInds dists_tgt tgt_filt).map (fun i => dists_tgt.getD i 0)) th : ℚ)
               / ((validInds dists_tgt tgt_filt).map (fun i => dists_tgt.getD i 0)).length),
         (validInds dists_src src_filt).length,
         (validInds dists_tgt tgt_filt).length⟩ := by
  simp only [compare_point_clouds]
  rw [npIndexSelect_of_ne_nil hs, npIndexSelect_of_ne_nil ht]

theorem countLe_mono (l : List ℚ) {a b : ℚ} (h : a ≤ b) :
    countLe l a ≤ countLe l b := by
  unfold countLe
  induction l with
  | nil => simp
  | cons x t ih =>
    rw [List.filter_cons, List.filter_cons]
    by_cases hx : x ≤ a
    · rw [if_pos (by simpa using hx), if_pos (by simpa using le_trans hx h)]
      simpa using ih
    · by_cases hx2 : x ≤ b
      · rw [if_neg (by simpa using hx), if_pos (by simpa using hx2)]
        exact le_trans ih (by rw [List.length_cons]; exact Nat.le_succ _)
      · rw [if_neg (by simpa using hx), if_neg (by simpa using hx2)]
        exact ih

theorem getD_map_ratfun (l : List ℚ) (f : ℚ → ℚ) (i : ℕ) (hi : i < l.length) :
    (l.map f).getD i 0 = f (l.getD i 0) := by
  rw [List.getD_eq_getElem?_getD, List.getElem?_map, List.getElem?_eq_getElem hi,
    List.getD_eq_getElem?_getD, List.getElem?_eq_getElem hi]
  rfl

theorem npLinspace_length (start stop : ℚ) (num : ℕ) :
    (npLinspace start stop num).length = num := by
  simp [npLinspace]

theorem npLinspace_getD (start stop : ℚ) (num i : ℕ) (hi : i < num) :
    (npLinspace start stop num).getD i 0
      = start + (stop - start) * i / ((num - 1 : ℕ) : ℚ) := by
  unfold npLinspace
  rw [List.getD_eq_getElem?_getD, List.getElem?_map, List.getElem?_range hi]
  rfl

/-! ### C6: the threshold sweep -/

/-- C6: on any input with nonempty valid sets on both sides, the sweep has
exactly 50 thresholds linearly spaced over `[0, 3*max_dist]`
(`th_i = 3*max_dist*i/49`), and the precision and recall curves are
monotonically non-decreasing as the threshold increases. -/
theorem compare_point_clouds_sweep (dists_src dists_tgt src_filt tgt_filt : List ℚ)
    (max_dist : ℚ) (hs : validInds dists_src src_filt ≠ [])
    (ht : validInds dists_tgt tgt_filt ≠ []) :
    ∃ m : CompareMetrics,
      compare_point_clouds dists_src dists_tgt src_filt tgt_filt max_dist = Except.ok m
      ∧ m.th_vals.length = 50
      ∧ (∀ i : ℕ, i < 50 → m.th_vals.getD i 0 = 3 * max_dist * i / 49)
      ∧ (∀ i j : ℕ, i < 50 → j < 50 → m.th_vals.getD i 0 ≤ m.th_vals.getD j 0 →
          m.prec_vals.getD i 0 ≤ m.prec_vals.getD j 0
          ∧ m.rec_vals.getD i 0 ≤ m.rec_vals.getD j 0) := by
  rw [compare_point_clouds_ok dists_src dists_tgt src_filt tgt_filt max_dist hs ht]
  refine ⟨_, rfl, ?_, ?_, ?_⟩
  · exact npLinspace_length 0 (3 * max_dist) 50
  · intro i hi
    rw [npLinspace_getD 0 (3 * max_dist) 50 i hi]
    norm_num
  · intro i j hi hj hth
    have hiL : i < (npLinspace 0 (3 * max_dist) 50).length := by
      rw [npLinspace_length]
      exact hi
    have hjL : j < (npLinspace 0 (3 * max_dist) 50).length := by
      rw [npLinspace_length]
      exact hj
    constructor
    · rw [getD_map_ratfun _ _ i hiL, getD_map_ratfun _ _ j hjL]
      have hn : 0 < (((validInds dists_src src_filt).map
          (fun k => dists_src.getD k 0)).length : ℚ) := by
        rw [List.length_map]
        exact_mod_cast List.length_pos.mpr hs
      rw [div_le_div_iff_of_pos_right hn]
      exact_mod_cast countLe_mono _ hth
    · rw [getD_map_ratfun _ _ i hiL, getD_map_ratfun _ _ j hjL]
      have hn : 0 < (((validInds dists_tgt tgt_filt).map
          (fun k => dists_tgt.getD k 0)).length : ℚ) := by
        rw [List.length_map]
        exact_mod_cast List.length_pos.mpr ht
      rw [div_le_div_iff_of_pos_right hn]
      exact_mod_cast countLe_mono _ hth

theorem compare_point_clouds_sweep_witness :
    ∃ m : CompareMetrics,
      compare_point_clouds [(1 : ℚ)] [(1 : ℚ)] [(1 : ℚ)] [(1 : ℚ)] 1 = Except.ok m
      ∧ m.th_vals.length = 50
      ∧ (∀ i : ℕ, i < 50 → m.th_vals.getD i 0 = 3 * 1 * i / 49)
      ∧ (∀ i j : ℕ, i < 50 → j < 50 → m.th_vals.getD i 0 ≤ m.th_vals.getD j 0 →
          m.prec_vals.getD i 0 ≤ m.prec_vals.getD j 0
          ∧ m.rec_vals.getD i 0 ≤ m.rec_vals.getD j 0) :=
  compare_point_clouds_sweep [(1 : ℚ)] [(1 : ℚ)] [(1 : ℚ)] [(1 : ℚ)] 1
    (by decide) (by decide)

/-! ### C7: the two-point scenario -/

/-- C7: a source cloud of two valid, outlier-free points at distances 0.1 and
0.5 from the target, with `max_dist = 0.4`, yields precision 1/2 and accuracy
3/10, whatever the (nonempty-valid) target side is. -/
theorem compare_point_clouds_scenario (dists_tgt tgt_filt : List ℚ)
    (ht : validInds dists_tgt tgt_filt ≠ []) :
    ∃ m : CompareMetrics,
      compare_point_clouds [1/10, 1/2] dists_tgt [1, 1] tgt_filt (2/5) = Except.ok m
      ∧ m.prec = 1/2 ∧ m.acc = 3/10 := by
  have hvS : validInds [(1 : ℚ)/10, 1/2] [(1 : ℚ), 1] = [0, 1] := by
    norm_num [validInds, whereEqOne, whereLeTwenty, List.range_succ,
      List.filter_append, List.filter_cons, List.filter_nil,
      List.getD_cons_zero, List.getD_cons_succ]
  have hs : validInds [(1 : ℚ)/10, 1/2] [(1 : ℚ), 1] ≠ [] := by
    rw [hvS]
    simp
  rw [compare_point_clouds_ok [1/10, 1/2] dists_tgt [1, 1] tgt_filt (2/5) hs ht]
  refine ⟨_, rfl, ?_, ?_⟩
  · show (countLe (((validInds [(1 : ℚ)/10, 1/2] [(1 : ℚ), 1])).map
        (fun i => ([(1 : ℚ)/10, 1/2]).getD i 0)) (2/5) : ℚ)
      / (((validInds [(1 : ℚ)/10, 1/2] [(1 : ℚ), 1])).map
        (fun i => ([(1 : ℚ)/10, 1/2]).getD i 0)).length = 1/2
    rw [hvS]
    norm_num [countLe, List.filter_cons, List.filter_nil,
      List.getD_cons_zero, List.getD_cons_succ]
  · show npMean (((validInds [(1 : ℚ)/10, 1/2] [(1 : ℚ), 1])).map
        (fun i => ([(1 : ℚ)/10, 1/2]).getD i 0)) = 3/10
    rw [hvS]
    norm_num [npMean, List.getD_cons_zero, List.getD_cons_succ]

theorem compare_point_clouds_scenario_witness :
    ∃ m : CompareMetrics,
      compare_point_clouds [1/10, 1/2] [(1 : ℚ)] [1, 1] [(1 : ℚ)] (2/5) = Except.ok m
      ∧ m.prec = 1/2 ∧ m.acc = 3/10 :=
  compare_point_clouds_scenario [(1 : ℚ)] [(1 : ℚ)] (by decide)

/-! ### C8: the extension gate of `read_point_cloud` -/

/-- C8 counterexample: the path `abcply` does not have the `.ply` file
extension, yet `read_point_cloud` proceeds to load it, because the code only
compares the last three characters with `ply`. -/
theorem read_point_cloud_extension_cex :
    read_point_cloud_proceeds ['a', 'b', 'c', 'p', 'l', 'y'] = true
    ∧ hasPlyExtension ['a', 'b', 'c', 'p', 'l', 'y'] = false := by
  decide

/-- C8 (amended): `read_point_cloud` aborts the run iff the last three
characters of the path are not `ply`; equivalently it proceeds to loading and
downsampling iff `ply` — with no dot required — is a suffix of the path. -/
theorem read_point_cloud_proceeds_iff (path : List Char) :
    read_point_cloud_proceeds path = true ↔ ['p', 'l', 'y'] <:+ path := by
  unfold read_point_cloud_proceeds pyLastThree
  rw [decide_eq_true_iff]
  constructor
  · intro h
    rw [← h]
    exact List.drop_suffix _ _
  · rintro ⟨t, ht⟩
    have hlen : path.length = t.length + 3 := by
      rw [← ht, List.length_append]
      rfl
    rw [hlen, ← ht, Nat.add_sub_cancel, List.drop_left]

theorem read_point_cloud_proceeds_iff_witness :
    read_point_cloud_proceeds ['a', '.', 'p', 'l', 'y'] = true :=
  (read_point_cloud_proceeds_iff ['a', '.', 'p', 'l', 'y']).mpr ⟨['a', '.'], rfl⟩

/-! ### C9: the inputs of `compare_point_clouds` are not modified -/

/-- C9: `compare_point_clouds` does not modify its input clouds: after the
body runs, the `src_ply` and `tgt_ply` variables still hold exactly the input
clouds (in particular the same point lists); the colored diagnostic clouds
are new derived objects. -/
theorem compare_point_clouds_ply_preserves_inputs (src_ply tgt_ply : Cloud)
    (dists_src dists_tgt src_filt tgt_filt : List ℚ) (max_dist : ℚ)
    (cmapHot cmapWinter : ℚ → Vec3)
    (hs : validInds dists_src src_filt ≠ [])
    (ht : validInds dists_tgt tgt_filt ≠ []) :
    ∃ out : ComparePlyOut,
      compare_point_clouds_ply src_ply tgt_ply dists_src dists_tgt src_filt
        tgt_filt max_dist cmapHot cmapWinter = Except.ok out
      ∧ out.src_ply_after = src_ply ∧ out.tgt_ply_after = tgt_ply
      ∧ out.src_ply_after.points = src_ply.points
      ∧ out.tgt_ply_after.points = tgt_ply.points := by
  simp only [compare_point_clouds_ply]
  rw [compare_point_clouds_ok dists_src dists_tgt src_filt tgt_filt max_dist hs ht]
  exact ⟨_, rfl, rfl, rfl, rfl, rfl⟩

theorem compare_point_clouds_ply_preserves_inputs_witness :
    ∃ out : ComparePlyOut,
      compare_point_clouds_ply ⟨[⟨1, 2, 3⟩], [⟨0, 0, 0⟩]⟩ ⟨[⟨4, 5, 6⟩], [⟨0, 0, 0⟩]⟩
        [(1 : ℚ)] [(1 : ℚ)] [(1 : ℚ)] [(1 : ℚ)] 1
        (fun _ => ⟨1, 0, 0⟩) (fun _ => ⟨0, 0, 1⟩) = Except.ok out
      ∧ out.src_ply_after = ⟨[⟨1, 2, 3⟩], [⟨0, 0, 0⟩]⟩
      ∧ out.tgt_ply_after = ⟨[⟨4, 5, 6⟩], [⟨0, 0, 0⟩]⟩
      ∧ out.src_ply_after.points = (⟨[⟨1, 2, 3⟩], [⟨0, 0, 0⟩]⟩ : Cloud).points
      ∧ out.tgt_ply_after.points = (⟨[⟨4, 5, 6⟩], [⟨0, 0, 0⟩]⟩ : Cloud).points :=
  compare_point_clouds_ply_preserves_inputs ⟨[⟨1, 2, 3⟩], [⟨0, 0, 0⟩]⟩
    ⟨[⟨4, 5, 6⟩], [⟨0, 0, 0⟩]⟩ [(1 : ℚ)] [(1 : ℚ)] [(1 : ℚ)] [(1 : ℚ)] 1
    (fun _ => ⟨1, 0, 0⟩) (fun _ => ⟨0, 0, 1⟩) (by decide) (by decide)

/-! ### C10: the duplicated last caption and label -/

theorem getD_length_pred_eq_getLastD (l : List String) (k : ℕ)
    (h : l.length = k + 1) : l.getD k "" = l.getLastD "" := by
  rw [List.getD_eq_getElem?_getD, List.getLastD_eq_getLast?,
    List.getLast?_eq_getElem?, h, Nat.add_sub_cancel]

/-- C10: with nonempty equal-length input lists, the generated LaTeX ends
with the final subfigure's caption and label lines followed by the enclosing
figure's caption and label lines — so the last caption and the last label
each appear twice, once in each role. -/
theorem create_subfigures_last_caption_label (images captions labels : List String)
    (h0 : images ≠ []) (h1 : captions.length = images.length)
    (h2 : labels.length = images.length) :
    ∃ p : String, create_subfigures images captions labels =
      p ++ ("\t\t\\caption\x7b" ++ captions.getLastD "" ++ "\x7d\n")
        ++ ("\t\t\\label\x7bfig:" ++ labels.getLastD "" ++ "\x7d\n")
        ++ "\t\\end\x7bsubfigure\x7d\n\t\\hfill\n"
        ++ ("\t\\caption\x7b" ++ captions.getLastD "" ++ "\x7d\n")
        ++ ("\t\\label\x7bfig:" ++ labels.getLastD "" ++ "\x7d\n")
        ++ "\\end\x7bfigure\x7d" := by
  obtain ⟨k, hk⟩ : ∃ k, images.length = k + 1 := by
    cases images with
    | nil => exact absurd rfl h0
    | cons a t => exact ⟨t.length, rfl⟩
  have hc : captions.getD k "" = captions.getLastD "" :=
    getD_length_pred_eq_getLastD captions k (h1.trans hk)
  have hl : labels.getD k "" = labels.getLastD "" :=
    getD_length_pred_eq_getLastD labels k (h2.trans hk)
  simp only [create_subfigures]
  rw [hk, List.range_succ, List.foldl_append, List.foldl_cons, List.foldl_nil,
    hc, hl]
  refine ⟨((List.range k).foldl
      (fun fig n => fig ++ subfigBlock (fmtOneDecimal (1 / ((k + 1 : ℕ) : ℚ)))
        (images.getD n "") (captions.getD n "") (labels.getD n ""))
      "\\begin\x7bfigure\x7d\n")
    ++ subfigHead (fmtOneDecimal (1 / ((k + 1 : ℕ) : ℚ))) (images.getD k ""), ?_⟩
  simp only [subfigBlock, subfigHead, subfigCapLab, figureTail, String.append_assoc]

theorem create_subfigures_last_caption_label_witness :
    ∃ p : String, create_subfigures ["i"] ["c"] ["l"] =
      p ++ ("\t\t\\caption\x7b" ++ (["c"] : List String).getLastD "" ++ "\x7d\n")
        ++ ("\t\t\\label\x7bfig:" ++ (["l"] : List String).getLastD "" ++ "\x7d\n")
        ++ "\t\\end\x7bsubfigure\x7d\n\t\\hfill\n"
        ++ ("\t\\caption\x7b" ++ (["c"] : List String).getLastD "" ++ "\x7d\n")
        ++ ("\t\\label\x7bfig:" ++ (["l"] : List String).getLastD "" ++ "\x7d\n")
        ++ "\\end\x7bfigure\x7d" :=
  create_subfigures_last_caption_label ["i"] ["c"] ["l"] (by decide) rfl rfl

end VisionToolkit
